import Mathlib

/-!
Shallow embedding of the vpn-route-manager repository (Go) in Lean 4.

The embedding follows the source files:
- `internal/network/routes.go`  (RouteManager: AddRoute, RemoveRoute,
  removeRouteCommand, RemoveAllRoutes, GetActiveRoutes, the netstat
  canonicalization inside VerifyRoute)
- `internal/network/vpn.go`     (VPNDetector: IsVPNConnected,
  hasUTunDefaultRoute, hasGlobalProtectInterface)
- `internal/network/gateway.go` (GatewayDetector: DetectGateway, isVPNGateway)
- `internal/network/manager.go` (Manager: AddServiceRoutes)
- `internal/service` (State, StateManager.Save/Load, the reconciliation loop:
  checkAndUpdateRoutes, handleVPNConnected, handleVPNDisconnected,
  removeAllRoutes)

Conventions of the embedding:
- The OS command runner is modelled as an oracle `os : OsCmd → CmdResult`
  supplied as an argument; operations additionally return the list of OS
  commands they issued, so that command-count properties can be stated.
- Go maps are modelled as association lists with at-most-one binding per key
  (insertion replaces in place); Go map iteration order is nondeterministic,
  the list order is a fixed determinization.  All properties proved below are
  insensitive to that order.
- `time.Time` values are modelled as `Nat` timestamps; Go's zero time is `0`.
- Strings are Lean `String`s; the Go `strings` helpers used by the source
  (`Fields`, `HasPrefix`, `Contains`, `Split`) are re-implemented structurally
  below so that everything evaluates by `decide`/`rfl`.
-/

namespace VpnRM

/-! ### Go string helpers -/

/-- `listHasPre p t` is true iff the char list `p` is an initial segment of
`t`; models Go `strings.HasPrefix` at the character-list level. -/
def listHasPre : List Char → List Char → Bool
  | [], _ => true
  | _ :: _, [] => false
  | p :: ps, t :: ts => p = t && listHasPre ps ts

/-- Go `strings.HasPrefix s pre`. -/
def goStartsWith (s pre : String) : Bool :=
  listHasPre pre.toList s.toList

/-- `listHasSub p t`: `p` occurs as a contiguous run inside `t`;
models Go `strings.Contains` at the character-list level. -/
def listHasSub (p : List Char) : List Char → Bool
  | [] => p.isEmpty
  | t :: ts => listHasPre p (t :: ts) || listHasSub p ts

/-- Go `strings.Contains s sub`. -/
def goContainsStr (s sub : String) : Bool :=
  listHasSub sub.toList s.toList

/-- Accumulator-style worker for Go `strings.Fields`: splits a char list at
whitespace runs, dropping empty pieces. -/
def goFieldsAux (acc : List Char) : List Char → List String
  | [] => if acc.isEmpty then [] else [String.mk acc.reverse]
  | c :: cs =>
    if c = ' ' || c = '\t' then
      if acc.isEmpty then goFieldsAux [] cs
      else String.mk acc.reverse :: goFieldsAux [] cs
    else goFieldsAux (c :: acc) cs

/-- Go `strings.Fields` (for the space/tab whitespace appearing in
`netstat -rn` output). -/
def goFields (s : String) : List String :=
  goFieldsAux [] s.toList

/-- Splits a char list at every occurrence of `sep`, keeping empty pieces;
models Go `strings.Split` on single-character separators. -/
def splitOnCharAux (sep : Char) (acc : List Char) : List Char → List (List Char)
  | [] => [acc.reverse]
  | c :: cs =>
    if c = sep then acc.reverse :: splitOnCharAux sep [] cs
    else splitOnCharAux sep (c :: acc) cs

def splitOnChar (sep : Char) (cs : List Char) : List (List Char) :=
  splitOnCharAux sep [] cs

/-! ### CIDR parsing (`net.ParseCIDR` for dotted-quad IPv4) -/

/-- Decimal value of a digit character, if it is one. -/
def digitVal (c : Char) : Option Nat :=
  if '0' ≤ c ∧ c ≤ '9' then some (c.toNat - 48) else none

/-- Parses a run of decimal digits into its value; `none` when the list is
empty or contains a non-digit. -/
def parseDecDigits : List Char → Option Nat
  | [] => none
  | cs => go cs 0
where
  go : List Char → Nat → Option Nat
    | [], acc => some acc
    | c :: cs, acc =>
      match digitVal c with
      | none => none
      | some d => go cs (acc * 10 + d)

/-- One IPv4 dotted-quad field, as accepted by Go ≥ 1.17 `net.ParseCIDR`:
decimal, value ≤ 255, no leading zero except the single digit `0`. -/
def parseOctet (cs : List Char) : Option Nat :=
  match cs with
  | [] => none
  | ['0'] => some 0
  | '0' :: _ :: _ => none
  | _ =>
    match parseDecDigits cs with
    | none => none
    | some v => if v ≤ 255 then some v else none

/-- The prefix length after the slash: decimal, 0 ≤ value ≤ 32, no leading
zero except `0` itself. -/
def parsePrefixLen (cs : List Char) : Option Nat :=
  match cs with
  | [] => none
  | ['0'] => some 0
  | '0' :: _ :: _ => none
  | _ =>
    match parseDecDigits cs with
    | none => none
    | some v => if v ≤ 32 then some v else none

/-- A parsed IPv4 CIDR: the four (unmasked) address octets as given in the
input plus the prefix length.  `net.ParseCIDR` in `routes.go` is used with
`ip` (the unmasked input address) and `ipnet.Mask.Size()`, which this
structure captures. -/
structure Cidr where
  a : Nat
  b : Nat
  c : Nat
  d : Nat
  ones : Nat
deriving DecidableEq

/-- `net.ParseCIDR` restricted to dotted-quad IPv4 inputs (`"a.b.c.d/n"`),
which is the only form this repository feeds it.  Returns `none` exactly when
Go would return a parse error. -/
def parseCIDR (s : String) : Option Cidr :=
  match splitOnChar '/' s.toList with
  | [addr, mask] =>
    match splitOnChar '.' addr with
    | [f1, f2, f3, f4] =>
      match parseOctet f1, parseOctet f2, parseOctet f3, parseOctet f4,
            parsePrefixLen mask with
      | some a, some b, some c, some d, some n => some ⟨a, b, c, d, n⟩
      | _, _, _, _, _ => none
    | _ => none
  | _ => none

/-! ### The netstat canonicalization inside `VerifyRoute` (routes.go 185-208) -/

/-- The `netstatFormat` string built inside `RouteManager.VerifyRoute`
(routes.go lines 185-208), as a function of the four address octets and the
prefix length.  The branch structure is the source's, in source order. -/
def netstatFormat (a b c d ones : Nat) : String :=
  if ones = 16 ∧ d = 0 ∧ c = 0 then
    toString a ++ "." ++ toString b
  else if d = 0 ∧ c = 0 ∧ b = 0 then
    toString a ++ "/" ++ toString ones
  else if d = 0 ∧ c = 0 then
    toString a ++ "." ++ toString b ++ "/" ++ toString ones
  else if d = 0 then
    toString a ++ "." ++ toString b ++ "." ++ toString c ++ "/" ++ toString ones
  else
    toString a ++ "." ++ toString b ++ "." ++ toString c ++ "." ++ toString d
      ++ "/" ++ toString ones

/-- The canonicalization step of `VerifyRoute` as a function of the CIDR
string: parse, then format. -/
def netstatFormatOfCIDR (network : String) : Option String :=
  (parseCIDR network).map fun c => netstatFormat c.a c.b c.c c.d c.ones

/-- The spec's four-case canonicalization rule, written from the spec's words
("drops trailing zero octets according to prefix length: a `/16` network
ending in `.0.0` is shown as just its first two octets; a network whose third
and fourth octets are both zero but whose prefix is not 16 is shown with a
`/prefix` suffix and only the non-zero octets; a network whose final octet
alone is zero drops only that octet; otherwise all four octets plus `/prefix`
are shown").  "Only the non-zero octets" drops trailing zero octets, keeping
at least the first octet. -/
def specCanonRule (a b c d ones : Nat) : String :=
  if ones = 16 ∧ c = 0 ∧ d = 0 then
    toString a ++ "." ++ toString b
  else if c = 0 ∧ d = 0 then
    (if b = 0 then toString a else toString a ++ "." ++ toString b)
      ++ "/" ++ toString ones
  else if d = 0 then
    toString a ++ "." ++ toString b ++ "." ++ toString c ++ "/" ++ toString ones
  else
    toString a ++ "." ++ toString b ++ "." ++ toString c ++ "." ++ toString d
      ++ "/" ++ toString ones

theorem netstatFormat_eq_specCanonRule (a b c d ones : Nat) :
    netstatFormat a b c d ones = specCanonRule a b c d ones := by
  by_cases hd : d = 0 <;> by_cases hc : c = 0 <;> by_cases hb : b = 0 <;>
    by_cases h16 : ones = 16 <;>
      simp [netstatFormat, specCanonRule, hd, hc, hb, h16]

/-! ### Association-list model of Go maps -/

/-- Association-list lookup; models reading a Go map. -/
def mapLookup {α : Type} (m : List (String × α)) (k : String) : Option α :=
  (m.find? fun p => p.1 = k).map fun p => p.2

/-- Association-list update; models Go map assignment `m[k] = v` (replaces
the binding in place when present, otherwise appends).  Go map iteration
order is arbitrary anyway; the properties proved below are order
insensitive. -/
def mapInsert {α : Type} : List (String × α) → String → α → List (String × α)
  | [], k, v => [(k, v)]
  | p :: m, k, v => if p.1 = k then (k, v) :: m else p :: mapInsert m k v

theorem mapLookup_nil {α : Type} (k : String) :
    mapLookup ([] : List (String × α)) k = none := rfl

theorem mapLookup_cons {α : Type} (p : String × α) (m : List (String × α))
    (k : String) :
    mapLookup (p :: m) k = if p.1 = k then some p.2 else mapLookup m k := by
  by_cases h : p.1 = k <;> simp [mapLookup, List.find?_cons, h]

theorem mapInsert_of_lookup_none {α : Type} {m : List (String × α)}
    {k : String} (v : α) (h : mapLookup m k = none) :
    mapInsert m k v = m ++ [(k, v)] := by
  induction m with
  | nil => rfl
  | cons p m ih =>
    rw [mapLookup_cons] at h
    by_cases hp : p.1 = k
    · simp [hp] at h
    · simp [hp] at h
      simp [mapInsert, hp, ih h]

theorem mapLookup_append {α : Type} (m₁ m₂ : List (String × α)) (k : String) :
    mapLookup (m₁ ++ m₂) k =
      (mapLookup m₁ k).orElse fun _ => mapLookup m₂ k := by
  induction m₁ with
  | nil => simp [mapLookup]
  | cons p m ih =>
    by_cases h : p.1 = k <;>
      simp [mapLookup_cons, h, ih, Option.orElse]

theorem mapLookup_mapInsert_self {α : Type} (m : List (String × α))
    (k : String) (v : α) :
    mapLookup (mapInsert m k v) k = some v := by
  induction m with
  | nil => simp [mapInsert, mapLookup_cons]
  | cons p m ih =>
    by_cases h : p.1 = k
    · simp [mapInsert, h, mapLookup_cons]
    · simp [mapInsert, h, mapLookup_cons, ih]

theorem mapLookup_mapInsert_ne {α : Type} (m : List (String × α))
    {k k' : String} (v : α) (h : ¬ k = k') :
    mapLookup (mapInsert m k v) k' = mapLookup m k' := by
  induction m with
  | nil => simp [mapInsert, mapLookup_cons, h]
  | cons p m ih =>
    by_cases hp : p.1 = k
    · subst hp
      simp [mapInsert, mapLookup_cons, h]
    · simp [mapInsert, hp, mapLookup_cons, ih]

theorem mapLookup_eq_none_of_not_mem_keys {α : Type} {ns : List String}
    {k : String} (f : String → α) (h : ¬ k ∈ ns) :
    mapLookup (ns.map fun n => (n, f n)) k = none := by
  induction ns with
  | nil => rfl
  | cons n ns ih =>
    simp at h
    rw [List.map_cons, mapLookup_cons]
    simp only [Ne.symm h.1, if_false]
    exact ih h.2

theorem countP_eq_zero_of_lookup_none {α : Type} {m : List (String × α)}
    {k : String} (h : mapLookup m k = none) :
    (m.countP fun p => p.1 = k) = 0 := by
  induction m with
  | nil => rfl
  | cons p m ih =>
    rw [mapLookup_cons] at h
    by_cases hp : p.1 = k
    · simp [hp] at h
    · simp [hp] at h
      simp [List.countP_cons, hp, ih h]

/-! ### RouteManager (routes.go) -/

/-- An OS route-manipulation command issued through `exec.Command`. -/
inductive OsCmd where
  /-- `sudo route add -net <network> <gateway>` -/
  | routeAdd (network gateway : String)
  /-- `sudo route delete -net <network>` -/
  | routeDelete (network : String)
deriving DecidableEq

/-- The outcome of one OS command, as the code distinguishes outcomes:
success, failure whose combined output contains "not in table", and any
other failure. -/
inductive CmdResult where
  | ok
  | errNotInTable
  | errOther (msg : String)
deriving DecidableEq

/-- The command-execution oracle: what the OS answers to each command. -/
def OsOracle := OsCmd → CmdResult

/-- A tracked route (struct `Route` in routes.go); `Interface` is never set by
the code paths modelled here and is omitted. -/
structure Route where
  Network : String
  Gateway : String
  AddedAt : Nat
  Service : String
deriving DecidableEq

/-- The in-memory authoritative table `RouteManager.activeRoutes`. -/
abbrev Tbl := List (String × Route)

/-- `removeRouteCommand` (routes.go 106-117): runs the delete command; a
failure whose output contains "not in table" is treated as success. -/
def removeRouteCommand (os : OsOracle) (network : String) :
    Option String × List OsCmd :=
  (match os (.routeDelete network) with
   | .ok => none
   | .errNotInTable => none
   | .errOther m => some ("failed to remove route: " ++ m),
   [.routeDelete network])

/-- Whether the delete command for `network` fails for real (not the
"not in table" benign case). -/
def deleteFails (os : OsOracle) (network : String) : Bool :=
  match os (.routeDelete network) with
  | .errOther _ => true
  | _ => false

theorem removeRouteCommand_fst (os : OsOracle) (network : String) :
    (removeRouteCommand os network).1 = none ↔
      deleteFails os network = false := by
  unfold removeRouteCommand deleteFails
  cases os (.routeDelete network) <;> simp

/-- `AddRoute` (routes.go 44-83).  Returns the error (if any), the updated
table, and the OS commands issued, in order. -/
def AddRoute (os : OsOracle) (now : Nat) (activeRoutes : Tbl)
    (network gateway service : String) :
    Option String × Tbl × List OsCmd :=
  match parseCIDR network with
  | none => (some ("invalid network format " ++ network), activeRoutes, [])
  | some _ =>
    match mapLookup activeRoutes network with
    | some existing =>
      if existing.Gateway = gateway then
        -- route already present with the same gateway: no-op success
        (none, activeRoutes, [])
      else
        -- stale gateway: delete the old OS route (error only logged), re-add
        let del := removeRouteCommand os network
        match os (.routeAdd network gateway) with
        | .ok =>
          (none,
           mapInsert activeRoutes network
             ⟨network, gateway, now, service⟩,
           del.2 ++ [.routeAdd network gateway])
        | _ =>
          (some "failed to add route", activeRoutes,
           del.2 ++ [.routeAdd network gateway])
    | none =>
      match os (.routeAdd network gateway) with
      | .ok =>
        (none,
         mapInsert activeRoutes network ⟨network, gateway, now, service⟩,
         [.routeAdd network gateway])
      | _ =>
        (some "failed to add route", activeRoutes,
         [.routeAdd network gateway])

/-- `RemoveRoute` (routes.go 86-103): absent networks are a successful no-op
issuing no command; present ones are deleted from the table only when the
OS command did not fail. -/
def RemoveRoute (os : OsOracle) (activeRoutes : Tbl) (network : String) :
    Option String × Tbl × List OsCmd :=
  match mapLookup activeRoutes network with
  | none => (none, activeRoutes, [])
  | some _ =>
    match removeRouteCommand os network with
    | (some e, t) => (some e, activeRoutes, t)
    | (none, t) =>
      (none, activeRoutes.filter fun p => ¬ p.1 = network, t)

/-- Worker for `RemoveAllRoutes`: walks the table, issuing one delete per
entry; entries whose delete failed are kept, the rest are dropped.  Returns
the per-entry error messages, the surviving table, and the trace. -/
def removeAllAux (os : OsOracle) : Tbl → List String × Tbl × List OsCmd
  | [] => ([], [], [])
  | p :: rest =>
    match removeRouteCommand os p.1 with
    | (some e, t) =>
      let r := removeAllAux os rest
      ((p.1 ++ ": " ++ e) :: r.1, p :: r.2.1, t ++ r.2.2)
    | (none, t) =>
      let r := removeAllAux os rest
      (r.1, r.2.1, t ++ r.2.2)

/-- `RemoveAllRoutes` (routes.go 120-139): removes every entry it can,
aggregating per-entry failures into one combined error; entries whose delete
command failed stay in `activeRoutes`. -/
def RemoveAllRoutes (os : OsOracle) (activeRoutes : Tbl) :
    Option String × Tbl × List OsCmd :=
  let r := removeAllAux os activeRoutes
  (if r.1.isEmpty then none
   else some ("failed to remove some routes: " ++ String.intercalate "; " r.1),
   r.2)

/-- `GetActiveRoutes` (routes.go 142-151): a snapshot copy of the table. -/
def GetActiveRoutes (activeRoutes : Tbl) : List Route :=
  activeRoutes.map fun p => p.2

theorem removeAllAux_kept (os : OsOracle) (tbl : Tbl) :
    (removeAllAux os tbl).2.1 = tbl.filter fun p => deleteFails os p.1 := by
  induction tbl with
  | nil => rfl
  | cons p rest ih =>
    unfold removeAllAux
    rcases hc : removeRouteCommand os p.1 with ⟨e, t⟩
    cases e with
    | none =>
      have hdf : deleteFails os p.1 = false := by
        have := (removeRouteCommand_fst os p.1)
        rw [hc] at this; simpa using this.mp rfl
      simp [hdf, ih]
    | some m =>
      have hdf : deleteFails os p.1 = true := by
        have := (removeRouteCommand_fst os p.1)
        rw [hc] at this
        by_contra hcon
        simp at hcon
        have := this.mpr hcon
        simp at this
      simp [hdf, ih]

theorem removeAllAux_errs_empty (os : OsOracle) (tbl : Tbl) :
    (removeAllAux os tbl).1 = [] ↔
      ∀ p ∈ tbl, deleteFails os p.1 = false := by
  induction tbl with
  | nil => simp [removeAllAux]
  | cons p rest ih =>
    unfold removeAllAux
    rcases hc : removeRouteCommand os p.1 with ⟨e, t⟩
    cases e with
    | none =>
      have hdf : deleteFails os p.1 = false := by
        have := (removeRouteCommand_fst os p.1)
        rw [hc] at this; simpa using this.mp rfl
      simp [hdf, ih]
    | some m =>
      have hdf : deleteFails os p.1 = true := by
        have := (removeRouteCommand_fst os p.1)
        rw [hc] at this
        by_contra hcon
        simp at hcon
        have := this.mpr hcon
        simp at this
      simp [hdf]

/-- `RemoveAllRoutes` succeeds exactly when no delete failed, and the
surviving table is exactly the entries whose delete failed. -/
theorem RemoveAllRoutes_spec (os : OsOracle) (tbl : Tbl) :
    (RemoveAllRoutes os tbl).2.1 = tbl.filter (fun p => deleteFails os p.1) ∧
    ((RemoveAllRoutes os tbl).1 = none ↔
      ∀ p ∈ tbl, deleteFails os p.1 = false) := by
  constructor
  · exact removeAllAux_kept os tbl
  · have hiff : (RemoveAllRoutes os tbl).1 = none ↔
        (removeAllAux os tbl).1 = [] := by
      unfold RemoveAllRoutes
      rcases h : (removeAllAux os tbl).1 with _ | ⟨e, es⟩ <;> simp [h]
    rw [hiff]
    exact removeAllAux_errs_empty os tbl

/-- `Manager.AddServiceRoutes` (manager.go 69-86) worker: adds each network in
order, collecting per-network errors, threading the table. -/
def addServiceAux (os : OsOracle) (now : Nat) (gateway serviceName : String) :
    List String → Tbl → List String × Tbl
  | [], tbl => ([], tbl)
  | n :: rest, tbl =>
    match AddRoute os now tbl n gateway serviceName with
    | (some e, tbl', _) =>
      let r := addServiceAux os now gateway serviceName rest tbl'
      ((n ++ ": " ++ e) :: r.1, r.2)
    | (none, tbl', _) => addServiceAux os now gateway serviceName rest tbl'

/-- `Manager.AddServiceRoutes` (manager.go 69-86): fails iff any individual
add failed, but always processes every network. -/
def AddServiceRoutes (os : OsOracle) (now : Nat) (tbl : Tbl)
    (serviceName : String) (networks : List String) (gateway : String) :
    Option String × Tbl :=
  let r := addServiceAux os now gateway serviceName networks tbl
  (if r.1.isEmpty then none else some "added some routes with errors", r.2)

/-! ### VPNDetector (vpn.go)

The detector shells out to `netstat -rn` and inspects its lines; the
routing-table snapshot is modelled as the list of output lines. -/

/-- `hasUTunDefaultRoute` (vpn.go 32-60): scans for the first IPv4 default
route with at least 4 fields; `utun` egress means connected, `en*` egress
means not connected, anything else keeps scanning. -/
def hasUTunDefaultRoute : List String → Bool
  | [] => false
  | line :: rest =>
    if goStartsWith line "default" && !goContainsStr line "fe80::" then
      let fields := goFields line
      if 4 ≤ fields.length then
        let iface := fields.getD 3 ""
        if goStartsWith iface "utun" then true
        else if iface = "en0" || goStartsWith iface "en" then false
        else hasUTunDefaultRoute rest
      else hasUTunDefaultRoute rest
    else hasUTunDefaultRoute rest

/-- The per-line test of `hasGlobalProtectInterface` (vpn.go 71-90): a route
whose destination field starts with "10." egressing through a `utun`
interface, or the GlobalProtect-specific `10.101.` + `UGSc` pattern. -/
def gpLineTest (line : String) : Bool :=
  (goContainsStr line "10." && goContainsStr line "utun" &&
    (let fields := goFields line
     decide (4 ≤ fields.length) &&
       goStartsWith (fields.getD 0 "") "10." &&
       goStartsWith (fields.getD 3 "") "utun"))
  || (goContainsStr line "10.101." && goContainsStr line "utun" &&
        goContainsStr line "UGSc")

/-- `hasGlobalProtectInterface` (vpn.go 63-93). -/
def hasGlobalProtectInterface (lines : List String) : Bool :=
  lines.any gpLineTest

/-- `IsVPNConnected` (vpn.go 17-29): the two heuristics combined by OR. -/
def IsVPNConnected (lines : List String) : Bool :=
  hasUTunDefaultRoute lines || hasGlobalProtectInterface lines

/-- The leading octet values of a netstat destination field (everything
before any `/`, split at dots). -/
def destOctets (dest : String) : List (Option Nat) :=
  (splitOnChar '.' ((splitOnChar '/' dest.toList).getD 0 [])).map parseOctet

/-- Modelled from the spec: "any route toward a private address block
(`10.0.0.0/8`, `172.16.0.0/12`) is observed egressing through a tunnel
interface".  A line is such a route when its destination's leading octets
place it in one of the two blocks and its interface field starts with
`utun`. -/
def specRouteToPrivateViaTunnel (lines : List String) : Bool :=
  lines.any fun line =>
    let fields := goFields line
    decide (4 ≤ fields.length) &&
      (match destOctets (fields.getD 0 "") with
       | some o1 :: rest =>
         o1 = 10 ||
           (o1 = 172 &&
             match rest with
             | some o2 :: _ => decide (16 ≤ o2) && decide (o2 ≤ 31)
             | _ => false)
       | _ => false) &&
      goStartsWith (fields.getD 3 "") "utun"

/-! ### GatewayDetector (gateway.go) -/

/-- `isVPNGateway` (gateway.go 203-219): the private-range blocklist for
corporate-VPN tunnel gateways. -/
def isVPNGateway (gateway : String) : Bool :=
  ["10.10", "172.29.", "172.30.", "172.31."].any fun pat =>
    goStartsWith gateway pat

/-- `DetectGateway` (gateway.go 28-56).  The five strategies do OS I/O; their
outcomes are supplied as a list (`.ok gw` for a nil-error return).  The cache
is modelled by its current value and whether it is still within its TTL.
Returns the gateway string and whether a non-nil error accompanies it. -/
def DetectGateway (cache : String) (cacheFresh : Bool)
    (methods : List (Except String String)) : String × Bool :=
  if cache ≠ "" ∧ cacheFresh then (cache, false)
  else
    match methods.find? fun r =>
        match r with
        | .ok g => !(g = "") && !isVPNGateway g
        | .error _ => false with
    | some (.ok g) => (g, false)
    | _ => ("192.168.1.1", true)

/-! ### StateManager (service package, `state.go`) -/

/-- The persisted `State` struct.  `ActiveServices` is `Option` of an
association list: `none` models a Go nil map (which marshals to JSON null),
`some` a non-nil map.  Timestamps are `Nat` with Go's zero time as `0`. -/
structure GoState where
  VPNConnected : Bool
  RoutesActive : Bool
  ActiveServices : Option (List (String × Bool))
  LastCheck : Nat
  StartTime : Nat
  LastGateway : String
  Version : String
deriving DecidableEq

/-- A JSON value, such as `encoding/json` produces for `State` (text layout
such as indentation is abstracted away). -/
inductive Jval where
  | null
  | jbool (b : Bool)
  | jnum (n : Nat)
  | jstr (s : String)
  | jobj (fields : List (String × Jval))

/-- `json.Marshal` of a `map[string]bool`: nil maps become null. -/
def encodeServices : Option (List (String × Bool)) → Jval
  | none => .null
  | some m => .jobj (m.map fun p => (p.1, .jbool p.2))

/-- `json.Marshal` of `State`, using the struct's JSON tags as keys. -/
def encodeState (s : GoState) : Jval :=
  .jobj
    [("vpn_connected", .jbool s.VPNConnected),
     ("routes_active", .jbool s.RoutesActive),
     ("active_services", encodeServices s.ActiveServices),
     ("last_check", .jnum s.LastCheck),
     ("start_time", .jnum s.StartTime),
     ("last_gateway", .jstr s.LastGateway),
     ("version", .jstr s.Version)]

def jLookup (fields : List (String × Jval)) (k : String) : Option Jval :=
  (fields.find? fun p => p.1 = k).map fun p => p.2

/-- Unmarshalling a bool field: an absent key or JSON null leaves the zero
value; a wrong type is an error. -/
def decBool : Option Jval → Option Bool
  | none => some false
  | some .null => some false
  | some (.jbool b) => some b
  | some _ => none

def decNat : Option Jval → Option Nat
  | none => some 0
  | some .null => some 0
  | some (.jnum n) => some n
  | some _ => none

def decStr : Option Jval → Option String
  | none => some ""
  | some .null => some ""
  | some (.jstr s) => some s
  | some _ => none

def decSvcEntries : List (String × Jval) → Option (List (String × Bool))
  | [] => some []
  | (k, .jbool b) :: rest =>
    (decSvcEntries rest).map fun r => (k, b) :: r
  | _ :: _ => none

/-- Unmarshalling a `map[string]bool` field: absent or null gives a nil
map. -/
def decSvcs : Option Jval → Option (Option (List (String × Bool)))
  | none => some none
  | some .null => some none
  | some (.jobj fields) => (decSvcEntries fields).map some
  | some _ => none

/-- `json.Unmarshal` into a fresh `State` value (Go zero values for absent
fields). -/
def decodeState (j : Jval) : Option GoState :=
  match j with
  | .jobj fields =>
    match decBool (jLookup fields "vpn_connected"),
          decBool (jLookup fields "routes_active"),
          decSvcs (jLookup fields "active_services"),
          decNat (jLookup fields "last_check"),
          decNat (jLookup fields "start_time"),
          decStr (jLookup fields "last_gateway"),
          decStr (jLookup fields "version") with
    | some vc, some ra, some svcs, some lc, some st, some lg, some v =>
      some ⟨vc, ra, svcs, lc, st, lg, v⟩
    | _, _, _, _, _, _, _ => none
  | _ => none

/-- `StateManager.Save` (state.go 95-119): stamps `LastCheck` with the save
time, marshals, and atomically replaces the state file.  Returns the new
in-memory state and the file contents. -/
def SaveState (now : Nat) (s : GoState) : GoState × Jval :=
  let s' := { s with LastCheck := now }
  (s', encodeState s')

/-- `StateManager.Load` (state.go 58-92): parses the file, refreshes a zero
`StartTime` to the current time, then merges only `VPNConnected`,
`RoutesActive`, `LastCheck`, `LastGateway`, and (when non-nil)
`ActiveServices` into the in-memory state; `StartTime` and `Version` come
from the running process, not the file. -/
def LoadState (now : Nat) (file : Jval) (cur : GoState) : Option GoState :=
  match decodeState file with
  | none => none
  | some st =>
    let cur1 := if cur.StartTime = 0 then { cur with StartTime := now } else cur
    some { cur1 with
      VPNConnected := st.VPNConnected
      RoutesActive := st.RoutesActive
      LastCheck := st.LastCheck
      LastGateway := st.LastGateway
      ActiveServices :=
        match st.ActiveServices with
        | none => cur1.ActiveServices
        | some m => some m }

theorem decSvcEntries_encode (m : List (String × Bool)) :
    decSvcEntries (m.map fun p => (p.1, .jbool p.2)) = some m := by
  induction m with
  | nil => rfl
  | cons p rest ih => simp [decSvcEntries, ih]

/-- Marshal-then-unmarshal is the identity on `State` values. -/
theorem decodeState_encodeState (s : GoState) :
    decodeState (encodeState s) = some s := by
  rcases s with ⟨vc, ra, svcs, lc, st, lg, v⟩
  cases svcs with
  | none => simp [decodeState, encodeState, jLookup, encodeServices, decBool,
      decNat, decStr, decSvcs]
  | some m =>
    simp [decodeState, encodeState, jLookup, encodeServices, decBool,
      decNat, decStr, decSvcs, decSvcEntries_encode]

/-- `StateManager` setter methods (state.go). -/
def setVPNConnected (st : GoState) (b : Bool) : GoState :=
  { st with VPNConnected := b }

def setRoutesActive (st : GoState) (b : Bool) : GoState :=
  { st with RoutesActive := b }

def setServiceActive (st : GoState) (name : String) (b : Bool) : GoState :=
  { st with
    ActiveServices := some (mapInsert (st.ActiveServices.getD []) name b) }

def updateLastCheck (st : GoState) (now : Nat) : GoState :=
  { st with LastCheck := now }

/-- `StateManager.IsServiceActive` (state.go 165-169): a missing key reads as
`false` (Go map zero value). -/
def IsServiceActive (st : GoState) (name : String) : Bool :=
  (mapLookup (st.ActiveServices.getD []) name).getD false

/-- The in-memory state a fresh `NewStateManager` builds (state.go 42-46). -/
def initGoState (startTime : Nat) : GoState :=
  ⟨false, false, some [], 0, startTime, "", "1.0.0"⟩

/-! ### The reconciliation loop (service `manager.go`) -/

/-- One enabled service as `GetEnabledServices` returns it: its name and its
configured networks. -/
structure SvcDef where
  name : String
  networks : List String

/-- The configuration visible to the loop: enabled services (with networks)
and all configured service names. -/
structure Cfg where
  enabled : List SvcDef
  allNames : List String

/-- The mutable state of the service `Manager` relevant to the loop:
`lastVPNState`, the `RouteManager` table, and the `StateManager` state. -/
structure LoopState where
  lastVPNState : Bool
  routes : Tbl
  st : GoState

/-- The environment of one tick: the command oracle, the detector's answer,
`DetectGateway`'s outcome, and the current time. -/
structure TickEnv where
  os : OsOracle
  vpnDetected : Bool
  gatewayRes : Except String String
  now : Nat

/-- `Manager.handleVPNConnected` (manager.go 187-222): aborts on gateway
failure or when no service is enabled; otherwise adds every enabled
service's networks (per-service failures only skip that service's active
mark) and finally sets `routesActive := true` unconditionally. -/
def handleVPNConnected (os : OsOracle) (now : Nat) (enabled : List SvcDef)
    (gatewayRes : Except String String) (ls : LoopState) : LoopState :=
  match gatewayRes with
  | .error _ => ls
  | .ok gateway =>
    if enabled.isEmpty then ls
    else
      let ls' := enabled.foldl
        (fun acc svc =>
          match AddServiceRoutes os now acc.routes svc.name svc.networks
              gateway with
          | (some _, tbl) => { acc with routes := tbl }
          | (none, tbl) =>
            { acc with
              routes := tbl
              st := setServiceActive acc.st svc.name true })
        ls
      { ls' with st := setRoutesActive ls'.st true }

/-- `Manager.removeAllRoutes` (manager.go 234-255): a no-op on an empty
table; on failure of the underlying `RemoveAllRoutes` it returns early
without touching the state flags; only on full success does it clear
`routesActive` and mark every configured service inactive. -/
def svcRemoveAllRoutes (os : OsOracle) (allNames : List String)
    (ls : LoopState) : Option String × LoopState :=
  if ls.routes.isEmpty then (none, ls)
  else
    match RemoveAllRoutes os ls.routes with
    | (some e, kept, _) => (some e, { ls with routes := kept })
    | (none, kept, _) =>
      let st1 := setRoutesActive ls.st false
      let st2 := allNames.foldl (fun st n => setServiceActive st n false) st1
      (none, { ls with routes := kept, st := st2 })

/-- `Manager.handleVPNDisconnected` (manager.go 225-231): calls
`removeAllRoutes`, only logging its error. -/
def handleVPNDisconnected (os : OsOracle) (allNames : List String)
    (ls : LoopState) : LoopState :=
  (svcRemoveAllRoutes os allNames ls).2

/-- `Manager.checkAndUpdateRoutes` (manager.go 146-184): updates the check
time; on a detector state change runs the matching handler, records the new
state, and saves.  Returns the new loop state and, when a save happened, the
snapshot written together with the route table at that moment. -/
def checkAndUpdateRoutes (env : TickEnv) (cfg : Cfg) (ls : LoopState) :
    LoopState × Option (GoState × Tbl) :=
  let ls0 := { ls with st := updateLastCheck ls.st env.now }
  if env.vpnDetected = ls0.lastVPNState then (ls0, none)
  else
    let ls1 :=
      if env.vpnDetected then
        handleVPNConnected env.os env.now cfg.enabled env.gatewayRes ls0
      else handleVPNDisconnected env.os cfg.allNames ls0
    let ls2 :=
      { ls1 with
        lastVPNState := env.vpnDetected
        st := setVPNConnected ls1.st env.vpnDetected }
    let stS := { ls2.st with LastCheck := env.now }
    ({ ls2 with st := stS }, some (stS, ls2.routes))

/-- Runs the loop for a list of ticks, collecting every saved snapshot
(paired with the route table at the moment of the save). -/
def runTicks (cfg : Cfg) : List TickEnv → LoopState → LoopState × List (GoState × Tbl)
  | [], ls => (ls, [])
  | env :: rest, ls =>
    let r := checkAndUpdateRoutes env cfg ls
    let r' := runTicks cfg rest r.1
    (r'.1, (match r.2 with | none => [] | some p => [p]) ++ r'.2)

/-- The loop state at `Manager` start: `lastVPNState` is `false`, the route
table is empty, the state manager is fresh. -/
def initLoopState (startTime : Nat) : LoopState :=
  ⟨false, [], initGoState startTime⟩

/-! ### Support lemmas about the service-activity flags -/

theorem IsServiceActive_setServiceActive (st : GoState) (m n : String)
    (b : Bool) :
    IsServiceActive (setServiceActive st m b) n =
      if m = n then b else IsServiceActive st n := by
  by_cases h : m = n
  · subst h
    simp [IsServiceActive, setServiceActive, mapLookup_mapInsert_self]
  · simp [IsServiceActive, setServiceActive, h,
      mapLookup_mapInsert_ne _ _ h]

theorem RoutesActive_setServiceActive (st : GoState) (n : String) (b : Bool) :
    (setServiceActive st n b).RoutesActive = st.RoutesActive := rfl

theorem RoutesActive_foldl_setInactive (names : List String) (st : GoState) :
    ((names.foldl (fun s n => setServiceActive s n false) st)).RoutesActive =
      st.RoutesActive := by
  induction names generalizing st with
  | nil => rfl
  | cons n names ih => simp [List.foldl_cons, ih, RoutesActive_setServiceActive]

theorem IsServiceActive_foldl_setInactive_preserve (names : List String)
    (st : GoState) (n : String) (h : IsServiceActive st n = false) :
    IsServiceActive (names.foldl (fun s m => setServiceActive s m false) st) n
      = false := by
  induction names generalizing st with
  | nil => exact h
  | cons m names ih =>
    rw [List.foldl_cons]
    apply ih
    rw [IsServiceActive_setServiceActive]
    by_cases hm : m = n <;> simp [hm, h]

theorem IsServiceActive_foldl_setInactive_mem (names : List String)
    (st : GoState) (n : String) (h : n ∈ names) :
    IsServiceActive (names.foldl (fun s m => setServiceActive s m false) st) n
      = false := by
  induction names generalizing st with
  | nil => cases h
  | cons m names ih =>
    rw [List.foldl_cons]
    rcases List.mem_cons.mp h with h1 | h2
    · subst h1
      apply IsServiceActive_foldl_setInactive_preserve
      simp [IsServiceActive_setServiceActive]
    · exact ih _ h2

/-! ### Support lemmas about AddRoute and the connect path -/

/-- Adding a valid, absent network with a succeeding OS command appends one
entry and issues exactly the one add command. -/
theorem AddRoute_ok_absent (os : OsOracle) (now : Nat) (tbl : Tbl)
    {network : String} (gateway service : String)
    (hp : (parseCIDR network).isSome = true)
    (habs : mapLookup tbl network = none)
    (hok : os (.routeAdd network gateway) = .ok) :
    AddRoute os now tbl network gateway service =
      (none, tbl ++ [(network, ⟨network, gateway, now, service⟩)],
       [.routeAdd network gateway]) := by
  rcases hc : parseCIDR network with _ | c
  · rw [hc] at hp; simp at hp
  · unfold AddRoute
    rw [hc, habs, hok, mapInsert_of_lookup_none _ habs]

/-- Route entries built for a list of networks. -/
def routeEntries (networks : List String) (gateway : String) (now : Nat)
    (service : String) : Tbl :=
  networks.map fun n => (n, ⟨n, gateway, now, service⟩)

theorem addServiceAux_all_ok (os : OsOracle) (now : Nat)
    (gateway serviceName : String) (networks : List String) (tbl : Tbl)
    (hp : ∀ n ∈ networks, (parseCIDR n).isSome = true)
    (habs : ∀ n ∈ networks, mapLookup tbl n = none)
    (hnd : networks.Nodup)
    (hok : ∀ n ∈ networks, os (.routeAdd n gateway) = .ok) :
    addServiceAux os now gateway serviceName networks tbl =
      ([], tbl ++ routeEntries networks gateway now serviceName) := by
  induction networks generalizing tbl with
  | nil => simp [addServiceAux, routeEntries]
  | cons n rest ih =>
    have hstep := AddRoute_ok_absent os now tbl gateway serviceName
      (hp n (by simp)) (habs n (by simp)) (hok n (by simp))
    have hnd' := List.nodup_cons.mp hnd
    have habs' : ∀ m ∈ rest,
        mapLookup (tbl ++ [(n, ⟨n, gateway, now, serviceName⟩)]) m = none := by
      intro m hm
      rw [mapLookup_append, habs m (List.mem_cons_of_mem _ hm)]
      have hne : ¬ n = m := fun h => hnd'.1 (h ▸ hm)
      simp [mapLookup_cons, mapLookup_nil, hne, Option.orElse]
    have hrest := ih _ (fun m hm => hp m (List.mem_cons_of_mem _ hm)) habs'
      hnd'.2 (fun m hm => hok m (List.mem_cons_of_mem _ hm))
    simp only [addServiceAux, hstep, hrest]
    simp [routeEntries, List.append_assoc]

/-- `AddServiceRoutes` under the same conditions: success, and the table
grows by exactly the service's entries. -/
theorem AddServiceRoutes_all_ok (os : OsOracle) (now : Nat) (tbl : Tbl)
    (serviceName : String) (networks : List String) (gateway : String)
    (hp : ∀ n ∈ networks, (parseCIDR n).isSome = true)
    (habs : ∀ n ∈ networks, mapLookup tbl n = none)
    (hnd : networks.Nodup)
    (hok : ∀ n ∈ networks, os (.routeAdd n gateway) = .ok) :
    AddServiceRoutes os now tbl serviceName networks gateway =
      (none, tbl ++ routeEntries networks gateway now serviceName) := by
  unfold AddServiceRoutes
  rw [addServiceAux_all_ok os now gateway serviceName networks tbl hp habs hnd
    hok]
  simp

/-! ### The loop invariant behind the `routesActive` flag -/

/-- The one direction of the spec's `routesActive` invariant that the code
maintains: a `false` flag means an empty table. -/
def FlagInv (ls : LoopState) : Prop :=
  ls.st.RoutesActive = false → ls.routes = []

theorem handleVPNConnected_inv (os : OsOracle) (now : Nat)
    (enabled : List SvcDef) (gatewayRes : Except String String)
    (ls : LoopState) (h : FlagInv ls) :
    FlagInv (handleVPNConnected os now enabled gatewayRes ls) := by
  unfold handleVPNConnected
  cases gatewayRes with
  | error e => exact h
  | ok gw =>
    by_cases he : enabled.isEmpty
    · simp [he]; exact h
    · simp [he]
      intro hra
      simp [setRoutesActive] at hra

theorem RemoveAllRoutes_none_empty (os : OsOracle) (tbl : Tbl)
    (h : (RemoveAllRoutes os tbl).1 = none) :
    (RemoveAllRoutes os tbl).2.1 = [] := by
  rcases RemoveAllRoutes_spec os tbl with ⟨hkept, hiff⟩
  rw [hkept, List.filter_eq_nil_iff]
  intro p hp
  simp [hiff.mp h p hp]

theorem handleVPNDisconnected_inv (os : OsOracle) (allNames : List String)
    (ls : LoopState) (h : FlagInv ls) :
    FlagInv (handleVPNDisconnected os allNames ls) := by
  unfold handleVPNDisconnected svcRemoveAllRoutes
  by_cases hemp : ls.routes.isEmpty
  · simp [hemp]
    intro _
    exact List.isEmpty_iff.mp hemp
  · simp [hemp]
    rcases hr : RemoveAllRoutes os ls.routes with ⟨e, kept, tr⟩
    cases e with
    | none =>
      simp
      intro _
      have := RemoveAllRoutes_none_empty os ls.routes (by rw [hr])
      rw [hr] at this
      exact this
    | some msg =>
      simp
      intro hra
      exact absurd (h hra) (by
        intro hnil
        rw [hnil] at hemp
        simp at hemp)

theorem checkAndUpdateRoutes_inv (env : TickEnv) (cfg : Cfg) (ls : LoopState)
    (h : FlagInv ls) :
    FlagInv (checkAndUpdateRoutes env cfg ls).1 ∧
      ∀ p, (checkAndUpdateRoutes env cfg ls).2 = some p →
        p.1.RoutesActive = false → p.2 = [] := by
  unfold checkAndUpdateRoutes
  have h0 : FlagInv { ls with st := updateLastCheck ls.st env.now } := by
    intro hra
    exact h hra
  by_cases hsame : env.vpnDetected = ls.lastVPNState
  · simp only [hsame]
    simp
    exact h0
  · simp only [hsame]
    simp
    by_cases hd : env.vpnDetected = true
    · have h1 := handleVPNConnected_inv env.os env.now cfg.enabled
        env.gatewayRes _ h0
      simp [hd]
      constructor
      · intro hra
        exact h1 hra
      · intro hra
        exact h1 hra
    · have hd' : env.vpnDetected = false := by
        cases hb : env.vpnDetected
        · rfl
        · exact absurd hb hd
      have h1 := handleVPNDisconnected_inv env.os cfg.allNames _ h0
      simp [hd']
      constructor
      · intro hra
        exact h1 hra
      · intro hra
        exact h1 hra

theorem runTicks_saves_inv (cfg : Cfg) (envs : List TickEnv) (ls : LoopState)
    (h : FlagInv ls) :
    ∀ p ∈ (runTicks cfg envs ls).2, p.1.RoutesActive = false → p.2 = [] := by
  induction envs generalizing ls with
  | nil => simp [runTicks]
  | cons env rest ih =>
    intro p hp
    rcases checkAndUpdateRoutes_inv env cfg ls h with ⟨hinv, hsave⟩
    rcases hmem : (checkAndUpdateRoutes env cfg ls).2 with _ | q
    · simp only [runTicks, hmem] at hp
      simp at hp
      exact ih _ hinv p hp
    · simp only [runTicks, hmem] at hp
      simp at hp
      rcases hp with hp | hp
      · subst hp
        exact hsave p hmem
      · exact ih _ hinv p hp

/-! ### Concrete scenarios used by witnesses and counterexamples -/

/-- An OS on which every command succeeds. -/
def osAllOk : OsOracle := fun _ => .ok

/-- An OS on which every command fails (e.g. `sudo` denied). -/
def osAllFail : OsOracle := fun _ => .errOther "operation not permitted"

/-- A loop state in the Connected regime with one installed route and one
active service. -/
def lsOneRoute : LoopState :=
  ⟨true, [("10.1.0.0/16", ⟨"10.1.0.0/16", "192.168.2.1", 0, "svcA"⟩)],
   ⟨true, true, some [("svcA", true)], 0, 5, "192.168.2.1", "1.0.0"⟩⟩

/-- One enabled service with one network. -/
def cfgOneSvc : Cfg := ⟨[⟨"svcA", ["10.1.0.0/16"]⟩], ["svcA"]⟩

/-- A connect tick on the failing OS. -/
def envConnFail : TickEnv := ⟨osAllFail, true, .ok "192.168.2.1", 1⟩

/-- A connect tick on the succeeding OS. -/
def envConnOk : TickEnv := ⟨osAllOk, true, .ok "192.168.2.1", 1⟩

/-- A disconnect tick on the succeeding OS. -/
def envDiscOk : TickEnv := ⟨osAllOk, false, .ok "192.168.2.1", 2⟩

/-- The second snapshot saved by a connect-then-disconnect run on the
succeeding OS. -/
def savedDisc : GoState × Tbl :=
  ((runTicks cfgOneSvc [envConnOk, envDiscOk] (initLoopState 0)).2).getD 1
    (initGoState 0, [])

/-- A state value whose `LastCheck` differs from the save time. -/
def sPersist : GoState := ⟨false, false, some [], 0, 5, "", "1.0.0"⟩

/-- A routing-table snapshot whose only tunnel route targets `172.16.0.0/12`
(destination `172.16.5`, interface `utun2`) while the default route egresses
through `en0`. -/
def linesPrivate172 : List String :=
  ["Destination        Gateway            Flags        Netif Expire",
   "default            192.168.2.1        UGScg          en0",
   "172.16.5           192.168.200.1      UGSc           utun2"]

/-- A routing-table snapshot with a `10.x` route through `utun3` and an `en0`
default route. -/
def linesPrivate10 : List String :=
  ["Destination        Gateway            Flags        Netif Expire",
   "default            192.168.2.1        UGScg          en0",
   "10.5               10.101.0.1         UGSc           utun3"]

/-! ## The claims -/

/-! #### C1 -/

/-- C1 (counterexample): with one installed route whose OS delete fails, the
`true → false` transition (`handleVPNDisconnected`) leaves the entry in the
in-memory table, the service still marked active, and `routesActive` still
true — refuting "partial failure leaves no stale entries in the in-memory
table". -/
theorem C1_counterexample :
    GetActiveRoutes (handleVPNDisconnected osAllFail ["svcA"] lsOneRoute).routes
        ≠ [] ∧
      IsServiceActive (handleVPNDisconnected osAllFail ["svcA"] lsOneRoute).st
        "svcA" = true ∧
      (handleVPNDisconnected osAllFail ["svcA"] lsOneRoute).st.RoutesActive
        = true := by
  decide

/-- C1 (amended): the disconnect transition removes exactly the entries whose
OS delete did not fail, so entries with a failing delete remain; when every
delete succeeds (the "not in table" outcome counts as success) and the table
was non-empty, the table ends empty, `routesActive` is cleared, and every
configured service is marked inactive. -/
theorem C1_disconnect_best_effort (os : OsOracle) (allNames : List String)
    (ls : LoopState) :
    (handleVPNDisconnected os allNames ls).routes =
      ls.routes.filter (fun p => deleteFails os p.1) ∧
    ((∀ p ∈ ls.routes, deleteFails os p.1 = false) → ¬ ls.routes = [] →
      (handleVPNDisconnected os allNames ls).routes = [] ∧
      (handleVPNDisconnected os allNames ls).st.RoutesActive = false ∧
      ∀ n ∈ allNames,
        IsServiceActive (handleVPNDisconnected os allNames ls).st n = false) := by
  unfold handleVPNDisconnected svcRemoveAllRoutes
  by_cases hemp : ls.routes.isEmpty
  · have hnil : ls.routes = [] := List.isEmpty_iff.mp hemp
    constructor
    · simp [hemp, hnil]
    · intro _ hne
      exact absurd hnil hne
  · rcases RemoveAllRoutes_spec os ls.routes with ⟨hkept, hiff⟩
    rcases hr : RemoveAllRoutes os ls.routes with ⟨err, kept, tr⟩
    rw [hr] at hkept hiff
    simp only at hkept hiff
    cases err with
    | some msg =>
      constructor
      · simp [hemp, hr, hkept]
      · intro hall _
        exact absurd (hiff.mpr hall) (by simp)
    | none =>
      have hkn : kept = [] := by
        rw [hkept, List.filter_eq_nil_iff]
        intro p hp
        simp [hiff.mp rfl p hp]
      constructor
      · simp [hemp, hr, hkept]
      · intro _ _
        refine ⟨by simp [hemp, hr, hkn], ?_, ?_⟩
        · simp [hemp, hr]
          rw [RoutesActive_foldl_setInactive]
          rfl
        · intro n hn
          simp [hemp, hr]
          exact IsServiceActive_foldl_setInactive_mem allNames _ n hn

/-- C1 (witness): on the all-succeeding OS, the amended theorem applies to
the one-route Connected state: the table empties and the flags clear. -/
theorem C1_disconnect_best_effort_witness :
    (handleVPNDisconnected osAllOk ["svcA"] lsOneRoute).routes = [] ∧
    (handleVPNDisconnected osAllOk ["svcA"] lsOneRoute).st.RoutesActive
      = false ∧
    IsServiceActive (handleVPNDisconnected osAllOk ["svcA"] lsOneRoute).st
      "svcA" = false := by
  have h := (C1_disconnect_best_effort osAllOk ["svcA"] lsOneRoute).2
    (by decide) (by decide)
  exact ⟨h.1, h.2.1, h.2.2 "svcA" (by decide)⟩

/-! #### C2 -/

/-- C2 (counterexample): a `false → true` transition on which the only
route-add fails saves a snapshot with `routesActive = true` while the
in-memory table is empty — refuting "`routesActive` is true iff the table is
non-empty at every save". -/
theorem C2_counterexample :
    ∃ p ∈ (runTicks cfgOneSvc [envConnFail] (initLoopState 0)).2,
      p.1.RoutesActive = true ∧ p.2 = [] := by
  decide

/-- C2 (amended): only one direction of the invariant holds at every save of
every run: a saved snapshot with `routesActive = false` always has an empty
route table; the converse fails when a connect transition adds no route. -/
theorem C2_flag_false_table_empty (cfg : Cfg) (envs : List TickEnv) (t0 : Nat)
    (p : GoState × Tbl) (hp : p ∈ (runTicks cfg envs (initLoopState t0)).2)
    (hra : p.1.RoutesActive = false) : p.2 = [] :=
  runTicks_saves_inv cfg envs (initLoopState t0) (fun _ => rfl) p hp hra

/-- C2 (witness): in a connect-then-disconnect run on the all-succeeding OS,
the disconnect save has `routesActive = false`, and the amended theorem
yields its empty table. -/
theorem C2_flag_false_table_empty_witness :
    savedDisc ∈ (runTicks cfgOneSvc [envConnOk, envDiscOk]
        (initLoopState 0)).2 ∧
      savedDisc.1.RoutesActive = false ∧ savedDisc.2 = [] :=
  ⟨by decide, by decide,
   C2_flag_false_table_empty cfgOneSvc [envConnOk, envDiscOk] 0 savedDisc
     (by decide) (by decide)⟩

/-! #### C3 -/

/-- C3: the canonicalization inside `VerifyRoute` maps the four concrete
CIDRs exactly as the spec states, and for every combination of octets and
prefix length it agrees with the spec's four-case trailing-zero-octet
rule. -/
theorem C3_canonicalization :
    netstatFormatOfCIDR "172.217.0.0/16" = some "172.217" ∧
    netstatFormatOfCIDR "91.108.4.0/22" = some "91.108.4/22" ∧
    netstatFormatOfCIDR "185.76.151.0/24" = some "185.76.151/24" ∧
    netstatFormatOfCIDR "10.0.0.0/8" = some "10/8" ∧
    ∀ a b c d ones : Nat,
      netstatFormat a b c d ones = specCanonRule a b c d ones :=
  ⟨by decide, by decide, by decide, by decide,
   netstatFormat_eq_specCanonRule⟩

/-! #### C4 -/

/-- Is an OS command a route-add invocation? -/
def isRouteAddCmd : OsCmd → Bool
  | .routeAdd _ _ => true
  | .routeDelete _ => false

/-- C4: adding a valid, previously-absent route whose OS command succeeds and
then re-adding the identical `(network, gateway)` pair leaves exactly one
table entry for that network, issues exactly one OS add command overall, and
the second call succeeds having issued no command at all. -/
theorem C4_idempotent_add (os : OsOracle) (now1 now2 : Nat) (tbl : Tbl)
    (network gateway service : String)
    (hp : (parseCIDR network).isSome = true)
    (habs : mapLookup tbl network = none)
    (hok : os (.routeAdd network gateway) = .ok) :
    (AddRoute os now1 tbl network gateway service).1 = none ∧
    AddRoute os now2 (AddRoute os now1 tbl network gateway service).2.1
        network gateway service =
      (none, (AddRoute os now1 tbl network gateway service).2.1, []) ∧
    ((AddRoute os now1 tbl network gateway service).2.2.countP isRouteAddCmd)
      = 1 ∧
    ((AddRoute os now1 tbl network gateway service).2.1.countP
        fun p => p.1 = network) = 1 := by
  have h1 := AddRoute_ok_absent os now1 tbl gateway service hp habs hok
  rcases hc : parseCIDR network with _ | c
  · rw [hc] at hp; simp at hp
  · have hlook2 : mapLookup (tbl ++ [(network,
        (⟨network, gateway, now1, service⟩ : Route))]) network =
        some ⟨network, gateway, now1, service⟩ := by
      rw [mapLookup_append, habs]
      simp [mapLookup_cons, Option.orElse]
    refine ⟨by rw [h1], ?_, ?_, ?_⟩
    · rw [h1]
      simp only [AddRoute, hc, hlook2]
      simp
    · rw [h1]
      simp [isRouteAddCmd]
    · rw [h1]
      rw [List.countP_append, countP_eq_zero_of_lookup_none habs]
      simp

/-- C4 (witness): the theorem applied to `203.0.113.0/24` via `10.0.0.1` on
an empty table with the all-succeeding OS. -/
theorem C4_idempotent_add_witness :
    (AddRoute osAllOk 7 [] "203.0.113.0/24" "10.0.0.1" "svcA").1 = none ∧
    AddRoute osAllOk 8
        (AddRoute osAllOk 7 [] "203.0.113.0/24" "10.0.0.1" "svcA").2.1
        "203.0.113.0/24" "10.0.0.1" "svcA" =
      (none, (AddRoute osAllOk 7 [] "203.0.113.0/24" "10.0.0.1" "svcA").2.1,
        []) ∧
    ((AddRoute osAllOk 7 [] "203.0.113.0/24" "10.0.0.1" "svcA").2.2.countP
      isRouteAddCmd) = 1 ∧
    ((AddRoute osAllOk 7 [] "203.0.113.0/24" "10.0.0.1" "svcA").2.1.countP
      fun p => p.1 = "203.0.113.0/24") = 1 :=
  C4_idempotent_add osAllOk 7 8 [] "203.0.113.0/24" "10.0.0.1" "svcA"
    (by decide) (by decide) rfl

/-! #### C5 -/

/-- C5 (counterexample): `Save` stamps `LastCheck` with the save time before
marshalling, so save-then-load does not return the original state: for
`sPersist` (whose `LastCheck` is 0) saved at time 1, the loaded state has
`LastCheck = 1` — refuting equality "in all fields" (all fields carry JSON
tags, none is excluded from serialization). -/
theorem C5_counterexample :
    LoadState 2 (SaveState 1 sPersist).2 (SaveState 1 sPersist).1
        ≠ some sPersist ∧
      LoadState 2 (SaveState 1 sPersist).2 (SaveState 1 sPersist).1 =
        some { sPersist with LastCheck := 1 } := by
  decide

/-- C5 (amended): save-then-load on the same manager restores exactly the
stamped snapshot: every field of the result equals the pre-save state except
`LastCheck`, which equals the save time (and `StartTime` survives only
because `Load` keeps the in-memory value — it is never read back from the
file). -/
theorem C5_roundtrip_stamped (s : GoState) (t t2 : Nat)
    (h : ¬ s.StartTime = 0) :
    LoadState t2 (SaveState t s).2 (SaveState t s).1 =
      some { s with LastCheck := t } := by
  unfold SaveState LoadState
  rw [decodeState_encodeState]
  rcases s with ⟨vc, ra, svcs, lc, st0, lg, v⟩
  simp only at h
  cases svcs with
  | none => simp [h]
  | some m => simp [h]

/-- C5 (witness): the amended round trip at `sPersist`, saved at time 3 and
loaded at time 9. -/
theorem C5_roundtrip_stamped_witness :
    LoadState 9 (SaveState 3 sPersist).2 (SaveState 3 sPersist).1 =
      some { sPersist with LastCheck := 3 } :=
  C5_roundtrip_stamped sPersist 3 9 (by decide)

/-! #### C6 -/

/-- C6 (counterexample): `linesPrivate172` contains a route toward
`172.16.0.0/12` (destination `172.16.5`) egressing through `utun2`, yet
`IsVPNConnected` is false: the secondary heuristic only matches destinations
starting with "10.", never the `172.16.0.0/12` block. -/
theorem C6_counterexample :
    specRouteToPrivateViaTunnel linesPrivate172 = true ∧
      IsVPNConnected linesPrivate172 = false := by
  decide

/-- C6 (amended): the secondary heuristic triggers only for routes whose
destination field starts with "10." and whose interface starts with `utun`
(given at least four columns); any snapshot containing such a line makes
`IsVPNConnected` true regardless of the default route, the two heuristics
being combined by OR. -/
theorem C6_ten_via_utun_connected (lines : List String) (line : String)
    (hmem : line ∈ lines)
    (h10 : goContainsStr line "10." = true)
    (hut : goContainsStr line "utun" = true)
    (hlen : 4 ≤ (goFields line).length)
    (hdest : goStartsWith ((goFields line).getD 0 "") "10." = true)
    (hifc : goStartsWith ((goFields line).getD 3 "") "utun" = true) :
    IsVPNConnected lines = true := by
  unfold IsVPNConnected
  rw [List.getD_eq_getElem?_getD] at hdest hifc
  have hgp : hasGlobalProtectInterface lines = true := by
    unfold hasGlobalProtectInterface
    rw [List.any_eq_true]
    refine ⟨line, hmem, ?_⟩
    unfold gpLineTest
    simp [h10, hut, hlen, hdest, hifc]
  simp [hgp]

/-- C6 (witness): the amended theorem applied to `linesPrivate10`, whose
third line routes `10.5` through `utun3` while the default route stays on
`en0`. -/
theorem C6_ten_via_utun_connected_witness :
    IsVPNConnected linesPrivate10 = true :=
  C6_ten_via_utun_connected linesPrivate10
    "10.5               10.101.0.1         UGSc           utun3"
    (by decide) (by decide) (by decide) (by decide) (by decide) (by decide)

/-! #### C7 -/

/-- C7: from the Disconnected state with an empty table, a `false → true`
detector report with successful gateway resolution, two enabled services
with 3 and 2 pairwise-distinct valid networks, and an OS on which every
route-add succeeds, one reconciliation cycle installs exactly 5 routes,
saves a snapshot with `routesActive = true`, and marks both services
active. -/
theorem C7_transition_completeness (os : OsOracle) (n1 n2 gw : String)
    (a b c d e : String) (t0 now : Nat)
    (hok : ∀ net g, os (.routeAdd net g) = .ok)
    (hp : ∀ n ∈ [a, b, c, d, e], (parseCIDR n).isSome = true)
    (hnd : ([a, b, c, d, e] : List String).Nodup) :
    ∃ lsF snap,
      checkAndUpdateRoutes ⟨os, true, .ok gw, now⟩
          ⟨[⟨n1, [a, b, c]⟩, ⟨n2, [d, e]⟩], [n1, n2]⟩ (initLoopState t0) =
        (lsF, some (snap, lsF.routes)) ∧
      (GetActiveRoutes lsF.routes).length = 5 ∧
      lsF.st.RoutesActive = true ∧ snap.RoutesActive = true ∧
      IsServiceActive lsF.st n1 = true ∧ IsServiceActive lsF.st n2 = true := by
  simp only [List.nodup_cons, List.mem_cons, List.not_mem_nil, or_false,
    not_or, List.nodup_nil, and_true] at hnd
  obtain ⟨⟨hab, hac, had, hae⟩, ⟨hbc, hbd, hbe⟩, ⟨hcd, hce⟩, hde, -⟩ := hnd
  have hmem : ∀ n ∈ [a, b, c], (parseCIDR n).isSome = true := by
    intro n hn
    simp at hn
    rcases hn with rfl | rfl | rfl <;> apply hp <;> simp
  have hmem2 : ∀ n ∈ [d, e], (parseCIDR n).isSome = true := by
    intro n hn
    simp at hn
    rcases hn with rfl | rfl <;> apply hp <;> simp
  have h1 : AddServiceRoutes os now [] n1 [a, b, c] gw =
      (none, routeEntries [a, b, c] gw now n1) := by
    apply AddServiceRoutes_all_ok os now [] n1 [a, b, c] gw hmem
      (fun n _ => rfl) ?_ (fun n _ => hok n gw)
    simp [List.nodup_cons]
    exact ⟨⟨hab, hac⟩, hbc⟩
  have habs2 : ∀ n ∈ [d, e],
      mapLookup (routeEntries [a, b, c] gw now n1) n = none := by
    intro n hn
    simp at hn
    unfold routeEntries
    apply mapLookup_eq_none_of_not_mem_keys
    rcases hn with rfl | rfl
    · simp
      exact ⟨fun h => had h.symm, fun h => hbd h.symm, fun h => hcd h.symm⟩
    · simp
      exact ⟨fun h => hae h.symm, fun h => hbe h.symm, fun h => hce h.symm⟩
  have h2 : AddServiceRoutes os now (routeEntries [a, b, c] gw now n1) n2
      [d, e] gw =
      (none, routeEntries [a, b, c] gw now n1 ++
        routeEntries [d, e] gw now n2) := by
    apply AddServiceRoutes_all_ok os now _ n2 [d, e] gw hmem2 habs2 ?_
      (fun n _ => hok n gw)
    simp [List.nodup_cons]
    exact hde
  have hrun : checkAndUpdateRoutes ⟨os, true, .ok gw, now⟩
      ⟨[⟨n1, [a, b, c]⟩, ⟨n2, [d, e]⟩], [n1, n2]⟩ (initLoopState t0) =
      (⟨true, routeEntries [a, b, c] gw now n1 ++
          routeEntries [d, e] gw now n2,
        ⟨true, true, some (mapInsert [(n1, true)] n2 true), now, t0, "",
          "1.0.0"⟩⟩,
       some (⟨true, true, some (mapInsert [(n1, true)] n2 true), now, t0, "",
          "1.0.0"⟩,
         routeEntries [a, b, c] gw now n1 ++
          routeEntries [d, e] gw now n2)) := by
    simp only [checkAndUpdateRoutes, initLoopState, initGoState,
      updateLastCheck, handleVPNConnected, List.foldl_cons, List.foldl_nil,
      h1, h2, setServiceActive, setRoutesActive, setVPNConnected]
    simp [mapInsert]
  refine ⟨_, _, hrun, ?_, rfl, rfl, ?_, ?_⟩
  · simp [GetActiveRoutes, routeEntries]
  · simp only [IsServiceActive, Option.getD]
    by_cases h12 : n2 = n1
    · subst h12
      simp [mapInsert, mapLookup_cons]
    · simp [mapLookup_mapInsert_ne _ _ h12, mapLookup_cons]
  · simp [IsServiceActive, mapLookup_mapInsert_self]

/-- C7 (witness): the theorem instantiated with services `svcA` (three
networks) and `svcB` (two networks) on the all-succeeding OS. -/
theorem C7_transition_completeness_witness :
    ∃ lsF snap,
      checkAndUpdateRoutes ⟨osAllOk, true, .ok "192.168.2.1", 1⟩
          ⟨[⟨"svcA", ["10.1.0.0/16", "10.2.0.0/16", "10.3.0.0/16"]⟩,
            ⟨"svcB", ["91.108.4.0/22", "185.76.151.0/24"]⟩],
           ["svcA", "svcB"]⟩ (initLoopState 0) =
        (lsF, some (snap, lsF.routes)) ∧
      (GetActiveRoutes lsF.routes).length = 5 ∧
      lsF.st.RoutesActive = true ∧ snap.RoutesActive = true ∧
      IsServiceActive lsF.st "svcA" = true ∧
      IsServiceActive lsF.st "svcB" = true :=
  C7_transition_completeness osAllOk "svcA" "svcB" "192.168.2.1"
    "10.1.0.0/16" "10.2.0.0/16" "10.3.0.0/16" "91.108.4.0/22"
    "185.76.151.0/24" 0 1 (fun _ _ => rfl) (by decide) (by decide)

/-! #### C8 -/

/-- A strategy outcome that cannot supply a gateway: an error, an empty
string, or a candidate on the VPN blocklist. -/
def strategyRejected : Except String String → Bool
  | .error _ => true
  | .ok g => g = "" || isVPNGateway g

/-- C8: when the cache cannot answer and every strategy outcome is either an
error, an empty gateway, or a candidate rejected by the VPN blocklist,
`DetectGateway` returns the hard-coded `192.168.1.1` together with a non-nil
error. -/
theorem C8_default_fallback (cache : String) (cacheFresh : Bool)
    (methods : List (Except String String))
    (hcache : cache = "" ∨ cacheFresh = false)
    (hall : ∀ r ∈ methods, strategyRejected r = true) :
    DetectGateway cache cacheFresh methods = ("192.168.1.1", true) := by
  unfold DetectGateway
  have hfind : (methods.find? fun r =>
      match r with
      | .ok g => !(g = "") && !isVPNGateway g
      | .error _ => false) = none := by
    rw [List.find?_eq_none]
    intro r hr
    have h := hall r hr
    cases r with
    | error m => simp
    | ok g =>
      simp [strategyRejected] at h
      rcases h with h | h <;> simp [h]
  simp only [hfind]
  rcases hcache with h | h <;> simp [h]

/-- C8 (witness): five outcomes — two errors, one empty gateway, and two
blocklisted candidates (`10.10.1.1`, `172.30.0.1`) — yield the default with
an error. -/
theorem C8_default_fallback_witness :
    DetectGateway "" false
        [.error "netstat failed", .ok "", .ok "10.10.1.1",
         .error "no router", .ok "172.30.0.1"] = ("192.168.1.1", true) :=
  C8_default_fallback "" false
    [.error "netstat failed", .ok "", .ok "10.10.1.1",
     .error "no router", .ok "172.30.0.1"]
    (Or.inl rfl) (by decide)

/-! #### C9 -/

/-- C9: whenever `AddRoute` returns an error — invalid CIDR or failing OS add
command — the in-memory table is returned unchanged, so a pre-existing entry
for that network keeps its old gateway. -/
theorem C9_add_atomic_on_error (os : OsOracle) (now : Nat) (tbl : Tbl)
    (network gateway service : String)
    (herr : (AddRoute os now tbl network gateway service).1.isSome = true) :
    (AddRoute os now tbl network gateway service).2.1 = tbl := by
  rcases hc : parseCIDR network with _ | c
  · simp [AddRoute, hc]
  · rcases hl : mapLookup tbl network with _ | ex
    · rcases ho : os (.routeAdd network gateway) with _ | _ | m
      · simp [AddRoute, hc, hl, ho] at herr
      · simp [AddRoute, hc, hl, ho]
      · simp [AddRoute, hc, hl, ho]
    · by_cases hgw : ex.Gateway = gateway
      · simp [AddRoute, hc, hl, hgw] at herr
      · rcases ho : os (.routeAdd network gateway) with _ | _ | m
        · simp [AddRoute, hc, hl, hgw, ho] at herr
        · simp [AddRoute, hc, hl, hgw, ho]
        · simp [AddRoute, hc, hl, hgw, ho]

/-- C9 (witness): adding the unparseable network `"bad"` over a one-entry
table errors and leaves the table — including the old gateway — unchanged. -/
theorem C9_add_atomic_on_error_witness :
    (AddRoute osAllOk 3 [("10.1.0.0/16", ⟨"10.1.0.0/16", "192.168.2.1", 0,
        "svcA"⟩)] "bad" "10.0.0.1" "svcB").2.1 =
      [("10.1.0.0/16", ⟨"10.1.0.0/16", "192.168.2.1", 0, "svcA"⟩)] :=
  C9_add_atomic_on_error osAllOk 3 _ "bad" "10.0.0.1" "svcB" (by decide)

/-! #### C10 -/

/-- C10: removing a network that is not in the in-memory table is an
immediate success that issues no OS command and leaves the table
unchanged. -/
theorem C10_remove_absent_noop (os : OsOracle) (tbl : Tbl) (network : String)
    (h : mapLookup tbl network = none) :
    RemoveRoute os tbl network = (none, tbl, []) := by
  unfold RemoveRoute
  rw [h]

/-- C10 (witness): removing `"172.16.0.0/12"` from a table that tracks only
`"10.1.0.0/16"` succeeds with no command issued. -/
theorem C10_remove_absent_noop_witness :
    RemoveRoute osAllFail [("10.1.0.0/16", ⟨"10.1.0.0/16", "192.168.2.1", 0,
        "svcA"⟩)] "172.16.0.0/12" =
      (none, [("10.1.0.0/16", ⟨"10.1.0.0/16", "192.168.2.1", 0, "svcA"⟩)],
        []) :=
  C10_remove_absent_noop osAllFail _ "172.16.0.0/12" (by decide)

end VpnRM
